import Mathlib

/-!
Shallow embedding of the Shelly Services authentication engine
(`custom_components/shelly_services/switch.py` and `sensor.py`).

Network effects are made explicit: each operation receives the outcome of
every HTTP call it may issue (an `HttpOutcome`), and returns, besides its
result, the list of calls it attempted on the wire.  An `HttpOutcome.exn`
models any exception raised by the transport (timeout, connection error,
or a `resp.json()` decode failure is modelled as a `none` body on an
otherwise delivered response).
-/

namespace ShellyServices

/-- `aiohttp.BasicAuth(login=..., password=...)`. -/
structure BasicAuth where
  login : String
  password : String
deriving Repr, DecidableEq

/-- Outcome of one HTTP request: either the transport raised (`exn`), or a
response arrived with a status code and a body; a `none` body means
`resp.json()` would raise (malformed body). -/
inductive HttpOutcome (β : Type) where
  | exn : HttpOutcome β
  | resp (status : Nat) (body : Option β) : HttpOutcome β
deriving Repr, DecidableEq

/-- JSON body of `GET /shelly`: the fields the integration reads.  Each
field is `none` when the key is absent from the JSON object. -/
structure ShellyInfo where
  gen : Option Int
  auth_en : Option Bool
  auth : Option Bool
deriving Repr, DecidableEq

/-- `coiot` sub-object of the `GET /settings` body. -/
structure CoiotConfig where
  peer : Option String
deriving Repr, DecidableEq

/-- JSON body of `GET /settings`: the fields the sensor reads. -/
structure SettingsBody where
  coiot : Option CoiotConfig
deriving Repr, DecidableEq

/-- `ws` sub-object of the `POST /rpc/Sys.GetConfig` body. -/
structure WsConfig where
  server : Option String
deriving Repr, DecidableEq

/-- JSON body of `POST /rpc/Sys.GetConfig`: the fields the sensor reads. -/
structure ConfigBody where
  ws : Option WsConfig
deriving Repr, DecidableEq

/-- JSON payload posted to `/rpc/Sys.SetAuth`: `{"user": u, "pass": p}`
when enabling, `{"user": null}` when disabling (`user = none` models the
JSON null, `pass = none` models the absent key). -/
structure SetAuthBody where
  user : Option String
  pass : Option String
deriving Repr, DecidableEq

/-- Query parameters of `GET /settings/login`. -/
structure LoginParams where
  enabled : String
  username : Option String
  password : Option String
deriving Repr, DecidableEq

/-- One attempted network call, with the wire-visible request data. -/
inductive Call where
  | getShelly (auth : Option BasicAuth)
  | getSettings (auth : Option BasicAuth)
  | postSysGetConfig (auth : Option BasicAuth)
  | postSysSetAuth (body : SetAuthBody) (auth : Option BasicAuth)
  | getSettingsLogin (ps : LoginParams) (auth : Option BasicAuth)
deriving Repr, DecidableEq

/-- Whether a call is a `GET /settings` request. -/
def Call.isGetSettings : Call → Bool
  | .getSettings _ => true
  | _ => false

/-- The protocol generation classes of the spec. -/
inductive GenerationClass where
  | gen1
  | gen23
deriving Repr, DecidableEq

/-- Classification used at every call site: a generation number `≥ 2` is
Gen2/3, anything else is Gen1. -/
def genClass (g : Int) : GenerationClass :=
  if 2 ≤ g then GenerationClass.gen23 else GenerationClass.gen1

/-! ## Auth State Reader (`switch.py`) -/

/-- Coordinator push feed availability, as probed by
`self._coordinator and hasattr(self._coordinator, "data")` and
`hasattr(data, "get") and callable(data.get)`. -/
inductive CoordFeed where
  | absent
  | noData
  | opaqueData
  | dict (d : ShellyInfo)
deriving Repr, DecidableEq

/-- Python `a or b` on two optional booleans: a truthy left operand wins,
otherwise the right operand is returned (so `some false or b = b`). -/
def pyOrBool (a b : Option Bool) : Option Bool :=
  match a with
  | some true => some true
  | _ => b

/-- `ShellyAuthSwitch._update_from_coordinator`: adopt `auth_en` when
present, else `auth` when present, else leave `_attr_is_on` unchanged;
a coordinator without dict-like data changes nothing. -/
def updateFromCoordinator (coord : CoordFeed) (is_on : Option Bool) : Option Bool :=
  match coord with
  | .dict d =>
    match d.auth_en with
    | some v => some v
    | none =>
      match d.auth with
      | some v => some v
      | none => is_on
  | _ => is_on

/-- Result of a read: the new `_attr_is_on` and the calls attempted. -/
structure ReadResult where
  is_on : Option Bool
  calls : List Call
deriving Repr, DecidableEq

/-- `ShellyAuthSwitch._check_auth_status`: one `GET /shelly` with optional
basic auth from the device entry credentials; 200 → pick `auth_en` for
gen 2/3 else `auth`, with a Python-`or` fallback; 401 → auth enabled;
anything else (including any exception) leaves the state unchanged. -/
def checkAuthStatus (username password : String) (probe : HttpOutcome ShellyInfo)
    (is_on : Option Bool) : ReadResult :=
  let auth : Option BasicAuth :=
    if password ≠ "" ∧ username ≠ "" then some ⟨username, password⟩ else none
  let calls := [Call.getShelly auth]
  match probe with
  | .exn => ⟨is_on, calls⟩
  | .resp s ob =>
    if s = 200 then
      match ob with
      | none => ⟨is_on, calls⟩
      | some d =>
        let authEnabled := if d.gen = some 2 ∨ d.gen = some 3 then d.auth_en else d.auth
        match authEnabled with
        | some v => ⟨some v, calls⟩
        | none =>
          match pyOrBool d.auth_en d.auth with
          | some v => ⟨some v, calls⟩
          | none => ⟨is_on, calls⟩
    else if s = 401 then ⟨some true, calls⟩
    else ⟨is_on, calls⟩

/-- `ShellyAuthSwitch.async_added_to_hass`: use the coordinator snapshot
when a coordinator with a `data` attribute exists (no network call),
otherwise fall back to `_check_auth_status`. -/
def readAuthState (coord : CoordFeed) (username password : String)
    (probe : HttpOutcome ShellyInfo) (is_on : Option Bool) : ReadResult :=
  match coord with
  | .absent => checkAuthStatus username password probe is_on
  | .noData => checkAuthStatus username password probe is_on
  | c => ⟨updateFromCoordinator c is_on, []⟩

/-! ## Auth State Writer (`switch.py`) -/

/-- The installation-wide credentials dict; `none` models an absent key,
so `creds.get("username", "admin")` is `username.getD "admin"`. -/
structure CredsDict where
  username : Option String
  password : Option String
deriving Repr, DecidableEq

/-- Environment of one `_set_auth` run: the probe outcome and the status
of the single mutation call (`none` = the mutation call raised). -/
structure SetAuthEnv where
  probe : HttpOutcome ShellyInfo
  mutation : Option Nat
deriving Repr, DecidableEq

/-- Error-level log events `_set_auth` can emit. -/
inductive LogEvent where
  | noPassword
  | httpError (status : Nat)
  | exnError
deriving Repr, DecidableEq

/-- Result of `_set_auth`: success (HTTP 200 on the mutation), the new
`_attr_is_on`, the calls attempted, and the error logs emitted. -/
structure SetAuthResult where
  success : Bool
  is_on : Option Bool
  calls : List Call
  logs : List LogEvent
deriving Repr, DecidableEq

/-- Inline generation detection of `_set_auth` (lines 264–277): 200 with a
parsed body → `data.get("gen", 1)`; any other status, a decode failure or
an exception → 1. -/
def writeDetectGen (probe : HttpOutcome ShellyInfo) : Int :=
  match probe with
  | .exn => 1
  | .resp s ob =>
    if s = 200 then
      match ob with
      | some d => d.gen.getD 1
      | none => 1
    else 1

/-- `ShellyAuthSwitch._set_auth`: reject on empty password before any
call; probe the generation (unauthenticated `GET /shelly`); `gen ≥ 2` →
`POST /rpc/Sys.SetAuth` (enable: `{user, pass}` body and no request auth;
disable: `{user: null}` body with basic auth); else
`GET /settings/login` (enable: `enabled=1&username&password`, no request
auth; disable: `enabled=0` with basic auth).  HTTP 200 → success and
optimistic state update; other status → failure logged with the status;
an exception on the mutation → failure logged. -/
def setAuth (creds : CredsDict) (enable : Bool) (env : SetAuthEnv)
    (is_on : Option Bool) : SetAuthResult :=
  let username := creds.username.getD "admin"
  let password := creds.password.getD ""
  if password = "" then
    ⟨false, is_on, [], [LogEvent.noPassword]⟩
  else
    let gen := writeDetectGen env.probe
    if 2 ≤ gen then
      let body : SetAuthBody :=
        if enable then ⟨some username, some password⟩ else ⟨none, none⟩
      let auth : Option BasicAuth :=
        if enable then none else some ⟨username, password⟩
      let calls := [Call.getShelly none, Call.postSysSetAuth body auth]
      match env.mutation with
      | none => ⟨false, is_on, calls, [LogEvent.exnError]⟩
      | some s =>
        if s = 200 then ⟨true, some enable, calls, []⟩
        else ⟨false, is_on, calls, [LogEvent.httpError s]⟩
    else
      let ps : LoginParams :=
        if enable then ⟨"1", some username, some password⟩ else ⟨"0", none, none⟩
      let auth : Option BasicAuth :=
        if enable then none else some ⟨username, password⟩
      let calls := [Call.getShelly none, Call.getSettingsLogin ps auth]
      match env.mutation with
      | none => ⟨false, is_on, calls, [LogEvent.exnError]⟩
      | some s =>
        if s = 200 then ⟨true, some enable, calls, []⟩
        else ⟨false, is_on, calls, [LogEvent.httpError s]⟩

/-! ## Connectivity Reporter (`sensor.py`) -/

/-- Environment of one `_load_connectivity_config` run: outcomes for the
probe, the Gen1 `GET /settings` and the Gen2/3 `POST /rpc/Sys.GetConfig`
(only one of the last two is consumed, per the detected generation). -/
structure DescribeEnv where
  probe : HttpOutcome ShellyInfo
  settings : HttpOutcome SettingsBody
  config : HttpOutcome ConfigBody
deriving Repr, DecidableEq

/-- `ShellyConnectivitySensor._detect_generation`: 200 with a parsed body
→ `data.get("gen", 1)`; any other status, a decode failure or an
exception → 1. -/
def detectGeneration (probe : HttpOutcome ShellyInfo) : Int :=
  match probe with
  | .exn => 1
  | .resp s ob =>
    if s = 200 then
      match ob with
      | some d => d.gen.getD 1
      | none => 1
    else 1

/-- `data.get("coiot", {}).get("peer", "")`. -/
def settingsPeer (sb : SettingsBody) : String :=
  match sb.coiot with
  | some c => c.peer.getD ""
  | none => ""

/-- `data.get("ws", {}).get("server", "")`. -/
def configWsServer (cb : ConfigBody) : String :=
  match cb.ws with
  | some w => w.server.getD ""
  | none => ""

/-- `ShellyConnectivitySensor._load_gen1_coiot`.  This method has no local
exception handler, so a transport exception or a decode failure
propagates to the caller (`Except.error`); a non-200/non-401 status
leaves `_attr_native_value` unassigned (`Except.ok none`). -/
def loadGen1Coiot (username password : String) (settings : HttpOutcome SettingsBody) :
    Except Unit (Option String) × Call :=
  let auth : Option BasicAuth :=
    if password ≠ "" ∧ username ≠ "" then some ⟨username, password⟩ else none
  let outcome : Except Unit (Option String) :=
    match settings with
    | .exn => .error ()
    | .resp s ob =>
      if s = 200 then
        match ob with
        | none => .error ()
        | some d =>
          let peer := settingsPeer d
          if peer = "" then .ok (some "CoIoT: mcast (multicast)")
          else .ok (some ("CoIoT: unicast " ++ peer))
      else if s = 401 then .ok (some "CoIoT: Unknown (auth required)")
      else .ok none
  (outcome, Call.getSettings auth)

/-- `ShellyConnectivitySensor._load_gen2_websocket`.  This method has its
own catch-all handler mapping any exception (including a decode failure)
to "WebSocket: Auto-discovery (mDNS)"; a non-200/non-401 status leaves
`_attr_native_value` unassigned (`none`). -/
def loadGen2Websocket (username password : String) (config : HttpOutcome ConfigBody) :
    Option String × Call :=
  let auth : Option BasicAuth :=
    if password ≠ "" ∧ username ≠ "" then some ⟨username, password⟩ else none
  let value : Option String :=
    match config with
    | .exn => some "WebSocket: Auto-discovery (mDNS)"
    | .resp s ob =>
      if s = 200 then
        match ob with
        | none => some "WebSocket: Auto-discovery (mDNS)"
        | some d =>
          let server := configWsServer d
          if server ≠ "" then some ("WebSocket: " ++ server)
          else some "WebSocket: Not configured (uses mDNS)"
      else if s = 401 then some "WebSocket: Unknown (auth required)"
      else none
  (value, Call.postSysGetConfig auth)

/-- Result of a describe: the sensor's native value (`none` = never
assigned, the entity keeps its initial `None`) and the attempted calls. -/
structure DescribeResult where
  value : Option String
  calls : List Call
deriving Repr, DecidableEq

/-- `ShellyConnectivitySensor._load_connectivity_config`: detect the
generation, dispatch on `gen >= 2`; any exception escaping the dispatched
loader is caught here and sets the value to "Unknown". -/
def loadConnectivityConfig (username password : String) (env : DescribeEnv) : DescribeResult :=
  let gen := detectGeneration env.probe
  let probeCall := Call.getShelly none
  if 2 ≤ gen then
    let r := loadGen2Websocket username password env.config
    ⟨r.1, [probeCall, r.2]⟩
  else
    let r := loadGen1Coiot username password env.settings
    match r.1 with
    | .ok v => ⟨v, [probeCall, r.2]⟩
    | .error _ => ⟨some "Unknown", [probeCall, r.2]⟩

/-- The outcome-to-string mapping the code actually implements, stated
per outcome (the amended form of the spec's §4.3 table): Gen2/3 answers
are prefixed "WebSocket: " and Gen1 answers "CoIoT: ", the concrete
wordings are those of `sensor.py`, a non-200/non-401 status leaves the
value unset, and a Gen1-path exception yields "Unknown" via the outer
handler. -/
def describeValueSpec (env : DescribeEnv) : Option String :=
  if 2 ≤ detectGeneration env.probe then
    match env.config with
    | .exn => some "WebSocket: Auto-discovery (mDNS)"
    | .resp s ob =>
      if s = 200 then
        match ob with
        | none => some "WebSocket: Auto-discovery (mDNS)"
        | some c =>
          if configWsServer c = "" then some "WebSocket: Not configured (uses mDNS)"
          else some ("WebSocket: " ++ configWsServer c)
      else if s = 401 then some "WebSocket: Unknown (auth required)"
      else none
  else
    match env.settings with
    | .exn => some "Unknown"
    | .resp s ob =>
      if s = 200 then
        match ob with
        | none => some "Unknown"
        | some sb =>
          if settingsPeer sb = "" then some "CoIoT: mcast (multicast)"
          else some ("CoIoT: unicast " ++ settingsPeer sb)
      else if s = 401 then some "CoIoT: Unknown (auth required)"
      else none

/-! ## Claim theorems -/

/-- C1: For every device with an available push feed, if the feed exposes
the explicit `auth_en` flag with a present (non-absent, possibly falsy)
value, the read adopts that value as the auth state and makes no network
call; since the legacy `auth` field of `d` is arbitrary here, the
explicit flag is preferred whenever both are present. -/
theorem read_coordinator_auth_en_no_network (d : ShellyInfo) (v : Bool)
    (username password : String) (probe : HttpOutcome ShellyInfo) (is_on : Option Bool)
    (h : d.auth_en = some v) :
    readAuthState (CoordFeed.dict d) username password probe is_on = ⟨some v, []⟩ := by
  simp [readAuthState, updateFromCoordinator, h]

/-- C1 witness: a feed carrying the falsy `auth_en = false` next to a
legacy `auth = true` yields `false` with an empty call list. -/
theorem read_coordinator_auth_en_no_network_witness :
    readAuthState (CoordFeed.dict ⟨some 2, some false, some true⟩) "u" "pw"
        HttpOutcome.exn none = ⟨some false, []⟩ :=
  read_coordinator_auth_en_no_network ⟨some 2, some false, some true⟩ false "u" "pw"
    HttpOutcome.exn none rfl

/-- C2: For every device and every prior auth state, a mutation call
answered with HTTP 200 returns success and sets the optimistic state to
the requested value; any other status returns failure, logs the status
code, and leaves the state unchanged. -/
theorem setAuth_mutation_status_policy (creds : CredsDict) (enable : Bool)
    (pr : HttpOutcome ShellyInfo) (s : Nat) (is_on : Option Bool)
    (hp : creds.password.getD "" ≠ "") :
    (s = 200 →
      (setAuth creds enable ⟨pr, some s⟩ is_on).success = true
      ∧ (setAuth creds enable ⟨pr, some s⟩ is_on).is_on = some enable)
    ∧ (s ≠ 200 →
      (setAuth creds enable ⟨pr, some s⟩ is_on).success = false
      ∧ (setAuth creds enable ⟨pr, some s⟩ is_on).is_on = is_on
      ∧ (setAuth creds enable ⟨pr, some s⟩ is_on).logs = [LogEvent.httpError s]) := by
  by_cases hg : 2 ≤ writeDetectGen pr <;>
    exact ⟨fun hs => by simp [setAuth, hp, hg, hs],
           fun hs => by simp [setAuth, hp, hg, hs]⟩

/-- C2 witness: Scenario D shape — disabling auth on a Gen2 device whose
mutation answers HTTP 403 fails, keeps the prior `enabled` state, and
logs status 403. -/
theorem setAuth_mutation_status_policy_witness :
    (setAuth ⟨some "admin", some "pw"⟩ false
        ⟨HttpOutcome.resp 200 (some ⟨some 2, none, none⟩), some 403⟩ (some true)).success = false
    ∧ (setAuth ⟨some "admin", some "pw"⟩ false
        ⟨HttpOutcome.resp 200 (some ⟨some 2, none, none⟩), some 403⟩ (some true)).is_on = some true
    ∧ (setAuth ⟨some "admin", some "pw"⟩ false
        ⟨HttpOutcome.resp 200 (some ⟨some 2, none, none⟩), some 403⟩ (some true)).logs
        = [LogEvent.httpError 403] :=
  (setAuth_mutation_status_policy ⟨some "admin", some "pw"⟩ false
    (HttpOutcome.resp 200 (some ⟨some 2, none, none⟩)) 403 (some true) (by decide)).2 (by decide)

/-- C3: For every device and every enable flag, `setAuth` with an empty
(or absent) writer password fails immediately: one error logged, zero
network calls, local state untouched. -/
theorem setAuth_empty_password_rejects (creds : CredsDict) (enable : Bool)
    (env : SetAuthEnv) (is_on : Option Bool) (h : creds.password.getD "" = "") :
    setAuth creds enable env is_on = ⟨false, is_on, [], [LogEvent.noPassword]⟩ := by
  simp [setAuth, h]

/-- C3 witness: an explicit empty password is rejected with no calls. -/
theorem setAuth_empty_password_rejects_witness :
    setAuth ⟨some "admin", some ""⟩ true ⟨HttpOutcome.exn, none⟩ (some false)
      = ⟨false, some false, [], [LogEvent.noPassword]⟩ :=
  setAuth_empty_password_rejects ⟨some "admin", some ""⟩ true ⟨HttpOutcome.exn, none⟩
    (some false) rfl

/-- C4: Detection is total and classifies exactly as claimed: an HTTP 200
probe with a parsed body maps `gen ≥ 2` to Gen2/3 and anything else
(smaller or absent `gen`) to Gen1; every failure shape (exception,
non-200 status, malformed body) yields Gen1.  The writer's inline
detector agrees with the sensor's. -/
theorem detect_total_gen_classification (probe : HttpOutcome ShellyInfo) :
    genClass (detectGeneration probe) =
      (match probe with
       | .resp s (some b) =>
         if s = 200 then
           (if 2 ≤ b.gen.getD 1 then GenerationClass.gen23 else GenerationClass.gen1)
         else GenerationClass.gen1
       | _ => GenerationClass.gen1)
    ∧ writeDetectGen probe = detectGeneration probe := by
  constructor
  · cases probe with
    | exn => rfl
    | resp s ob =>
      cases ob with
      | none => by_cases hs : s = 200 <;> simp [detectGeneration, genClass, hs]
      | some b => by_cases hs : s = 200 <;> simp [detectGeneration, genClass, hs]
  · cases probe <;> rfl

/-- C7: For every device in the network-fallback read path, an HTTP 401
answer to the poll makes the read return `enabled`. -/
theorem read_fallback_401_enabled (coord : CoordFeed) (username password : String)
    (body : Option ShellyInfo) (is_on : Option Bool)
    (h : coord = CoordFeed.absent ∨ coord = CoordFeed.noData) :
    (readAuthState coord username password (HttpOutcome.resp 401 body) is_on).is_on
      = some true := by
  rcases h with h | h <;> subst h <;> simp [readAuthState, checkAuthStatus]

/-- C7 witness: with no coordinator and a 401 poll answer the state is
`enabled`, whatever it was before. -/
theorem read_fallback_401_enabled_witness :
    (readAuthState CoordFeed.absent "" "" (HttpOutcome.resp 401 none) none).is_on
      = some true :=
  read_fallback_401_enabled CoordFeed.absent "" "" none none (Or.inl rfl)

/-- C10: When the writer credentials carry no username, `setAuth` behaves
exactly as if the username were "admin" (so every network call it makes
uses "admin"), and the precondition rejection fires precisely when the
password is empty or absent — a missing username alone never rejects. -/
theorem setAuth_missing_username_admin (pw : Option String) (enable : Bool)
    (env : SetAuthEnv) (is_on : Option Bool) :
    setAuth ⟨none, pw⟩ enable env is_on = setAuth ⟨some "admin", pw⟩ enable env is_on
    ∧ (LogEvent.noPassword ∈ (setAuth ⟨none, pw⟩ enable env is_on).logs
        ↔ pw.getD "" = "") := by
  constructor
  · rfl
  · by_cases h : pw.getD "" = ""
    · simp [setAuth, h]
    · rcases env with ⟨pr, m⟩
      rcases m with _ | s
      · by_cases hg : 2 ≤ writeDetectGen pr <;> simp [setAuth, h, hg]
      · by_cases hg : 2 ≤ writeDetectGen pr <;> by_cases hs : s = 200 <;>
          simp [setAuth, h, hg, hs]

/-- C5 counterexample: in the network fallback the read never issues a
`GET /settings` — the single call is the `GET /shelly` probe, and the
Gen1 auth boolean is read from that probe response itself. -/
theorem read_fallback_polls_shelly_not_settings :
    readAuthState CoordFeed.absent "u" "pw"
        (HttpOutcome.resp 200 (some ⟨some 1, none, some true⟩)) none
      = ⟨some true, [Call.getShelly (some ⟨"u", "pw"⟩)]⟩
    ∧ ((readAuthState CoordFeed.absent "u" "pw"
        (HttpOutcome.resp 200 (some ⟨some 1, none, some true⟩)) none).calls.all
        fun c => ! c.isGetSettings) = true := by
  exact ⟨by decide, by decide⟩

/-- C5 amended: in the network fallback, the read issues a single GET to
the self-description endpoint (with basic auth when both reader username
and password are non-empty) and, on HTTP 200 with a generation other
than 2 or 3, adopts the legacy `auth` boolean from that same response. -/
theorem read_fallback_gen1_via_probe (username password : String) (d : ShellyInfo)
    (b : Bool) (is_on : Option Bool)
    (hgen : ¬(d.gen = some 2 ∨ d.gen = some 3)) (hauth : d.auth = some b) :
    readAuthState CoordFeed.absent username password (HttpOutcome.resp 200 (some d)) is_on
      = ⟨some b,
         [Call.getShelly
           (if password ≠ "" ∧ username ≠ "" then some ⟨username, password⟩ else none)]⟩ := by
  simp [readAuthState, checkAuthStatus, hgen, hauth]

/-- C5 amended witness: a Gen1 probe response with `auth = true` yields
`enabled` through the one authenticated probe call. -/
theorem read_fallback_gen1_via_probe_witness :
    readAuthState CoordFeed.absent "user" "pw"
        (HttpOutcome.resp 200 (some ⟨some 1, none, some true⟩)) none
      = ⟨some true, [Call.getShelly (some ⟨"user", "pw"⟩)]⟩ := by
  rw [read_fallback_gen1_via_probe "user" "pw" ⟨some 1, none, some true⟩ true none
    (by decide) rfl]
  decide

/-- C6: On a detected Gen2/3 device, `setAuth` posts to `/rpc/Sys.SetAuth`
with exactly the claimed wire shape: enabling sends `{user, pass}` from
the writer credentials with no request-level auth; disabling sends a
null user field with basic auth built from the writer credentials. -/
theorem setAuth_gen23_wire_shape (creds : CredsDict) (enable : Bool)
    (env : SetAuthEnv) (is_on : Option Bool)
    (hp : creds.password.getD "" ≠ "") (hg : 2 ≤ writeDetectGen env.probe) :
    (setAuth creds enable env is_on).calls =
      [Call.getShelly none,
       Call.postSysSetAuth
         (if enable then ⟨some (creds.username.getD "admin"), some (creds.password.getD "")⟩
          else ⟨none, none⟩)
         (if enable then none
          else some ⟨creds.username.getD "admin", creds.password.getD ""⟩)] := by
  rcases env with ⟨pr, m⟩
  rcases m with _ | s
  · cases enable <;> simp_all [setAuth]
  · by_cases hs : s = 200 <;> cases enable <;> simp_all [setAuth]

/-- C6 witness: disabling auth on a Gen2 device with a missing username
posts `{user: null}` under basic auth `admin:pw`. -/
theorem setAuth_gen23_wire_shape_witness :
    (setAuth ⟨none, some "pw"⟩ false
        ⟨HttpOutcome.resp 200 (some ⟨some 2, none, none⟩), some 200⟩ none).calls
      = [Call.getShelly none, Call.postSysSetAuth ⟨none, none⟩ (some ⟨"admin", "pw"⟩)] := by
  rw [setAuth_gen23_wire_shape ⟨none, some "pw"⟩ false
    ⟨HttpOutcome.resp 200 (some ⟨some 2, none, none⟩), some 200⟩ none (by decide) (by decide)]
  decide

/-- C8 counterexample: the connectivity descriptor is not always a
string — a Gen1 device whose settings poll answers a plain 500 (no
exception) leaves the sensor value unset. -/
theorem describe_unset_on_plain_error_status :
    (loadConnectivityConfig "" "" ⟨HttpOutcome.resp 200 (some ⟨some 1, none, none⟩),
        HttpOutcome.resp 500 (some ⟨none⟩), HttpOutcome.exn⟩).value = none := by
  decide

/-- C8 amended: no exception escapes the public operations — under an
exception every one of them yields a definite outcome: a read fallback
whose poll raises leaves the initial `unknown` state, a `setAuth` whose
mutation raises fails with the local state unchanged, and a describe
whose every call raises yields the "Unknown" string; only a delivered
non-200/non-401 status can leave the descriptor unset. -/
theorem public_ops_definite_on_failure (username password : String) (creds : CredsDict)
    (enable : Bool) (pr : HttpOutcome ShellyInfo) (is_on : Option Bool) :
    (readAuthState CoordFeed.absent username password HttpOutcome.exn none).is_on = none
    ∧ (setAuth creds enable ⟨pr, none⟩ is_on).success = false
    ∧ (setAuth creds enable ⟨pr, none⟩ is_on).is_on = is_on
    ∧ (loadConnectivityConfig username password
        ⟨HttpOutcome.exn, HttpOutcome.exn, HttpOutcome.exn⟩).value = some "Unknown" := by
  refine ⟨?_, ?_, ?_, ?_⟩
  · simp [readAuthState, checkAuthStatus]
  · by_cases h : creds.password.getD "" = "" <;>
      by_cases hg : 2 ≤ writeDetectGen pr <;> simp [setAuth, h, hg]
  · by_cases h : creds.password.getD "" = "" <;>
      by_cases hg : 2 ≤ writeDetectGen pr <;> simp [setAuth, h, hg]
  · simp [loadConnectivityConfig, detectGeneration, loadGen1Coiot]

/-- C9 counterexample: the describe strings are not the spec's bare
wordings — Scenario B yields the prefixed "WebSocket: wss://example/ws",
not "wss://example/ws" verbatim, and an empty Gen1 peer yields
"CoIoT: mcast (multicast)", not "multicast". -/
theorem describe_strings_not_verbatim :
    (loadConnectivityConfig "" "" ⟨HttpOutcome.resp 200 (some ⟨some 3, none, none⟩),
        HttpOutcome.exn, HttpOutcome.resp 200 (some ⟨some ⟨some "wss://example/ws"⟩⟩)⟩).value
      = some "WebSocket: wss://example/ws"
    ∧ some "WebSocket: wss://example/ws" ≠ some ("wss://example/ws" : String)
    ∧ (loadConnectivityConfig "" "" ⟨HttpOutcome.resp 200 (some ⟨some 1, some true, some true⟩),
        HttpOutcome.resp 200 (some ⟨some ⟨some ""⟩⟩), HttpOutcome.exn⟩).value
      = some "CoIoT: mcast (multicast)"
    ∧ some "CoIoT: mcast (multicast)" ≠ some ("multicast" : String) := by
  exact ⟨by decide, by decide, by decide, by decide⟩

/-- C9 amended: for every device the describe value follows exactly the
code's outcome-to-string mapping `describeValueSpec` — the spec's table
with the "CoIoT: "/"WebSocket: " prefixes and the code's wordings, an
unset value on a delivered non-200/non-401 status, and "Unknown" when
the Gen1 path raises. -/
theorem describe_value_characterization (username password : String) (env : DescribeEnv) :
    (loadConnectivityConfig username password env).value = describeValueSpec env := by
  rcases env with ⟨pr, st, cf⟩
  by_cases hg : 2 ≤ detectGeneration pr
  · rcases cf with _ | ⟨s, ob⟩
    · simp [loadConnectivityConfig, describeValueSpec, hg, loadGen2Websocket]
    · rcases ob with _ | d <;> by_cases hs : s = 200 <;> by_cases h4 : s = 401 <;>
        simp [loadConnectivityConfig, describeValueSpec, hg, loadGen2Websocket, hs, h4,
          ite_not]
  · rcases st with _ | ⟨s, ob⟩
    · simp [loadConnectivityConfig, describeValueSpec, hg, loadGen1Coiot]
    · rcases ob with _ | d
      · by_cases hs : s = 200 <;> by_cases h4 : s = 401 <;>
          simp [loadConnectivityConfig, describeValueSpec, hg, loadGen1Coiot, hs, h4]
      · by_cases hs : s = 200 <;> by_cases h4 : s = 401 <;>
          by_cases hpe : settingsPeer d = "" <;>
          simp [loadConnectivityConfig, describeValueSpec, hg, loadGen1Coiot, hs, h4, hpe]

end ShellyServices
